import Mathlib

/-!
# Alert synchronization and risk-classification engine — verification

Shallow embedding of the alert engine of the hospital-monitoring dashboard
(`src/frontend/src/components/Header.js`, `AlertProvider`): the payload
normalizer, the derived views (active / critical / high-risk / acknowledged),
the stats record, the polling/fetch life cycle as an event-step relation, and
the acknowledge/dismiss mutation coordinator as trace-producing functions.

JavaScript numbers are modelled as rationals (`ℚ`), strings as `String`,
absent (`undefined`) fields as `Option`. Truthiness is modelled explicitly
where the source relies on it (`||` chains, `alert.risk_score && …`).
-/

namespace AlertEngine

/-- A raw alert element as delivered by the server: every field optional,
mirroring the heterogeneous payload (`alert_id` vs `id`,
`is_acknowledged` vs legacy `acknowledged`). `rest` stands for any further
fields carried along by the object spread. -/
structure RawAlert where
  alert_id : Option String := none
  id : Option String := none
  patient_id : Option String := none
  patient_name : Option String := none
  severity : Option String := none
  risk_score : Option ℚ := none
  is_acknowledged : Option Bool := none
  acknowledged : Option Bool := none
  timestamp : Option String := none
  message : Option String := none
  rest : List (String × String) := []
deriving DecidableEq

/-- A canonical Alert record held in the Store: the spread of the raw
element with `id` and `is_acknowledged` overridden by the normalizer. -/
structure Alert where
  alert_id : Option String := none
  id : Option String := none
  patient_id : Option String := none
  patient_name : Option String := none
  severity : Option String := none
  risk_score : Option ℚ := none
  is_acknowledged : Bool := false
  acknowledged : Option Bool := none
  timestamp : Option String := none
  message : Option String := none
  rest : List (String × String) := []
deriving DecidableEq

/-- JavaScript truthiness of an optional string: `undefined` and the empty
string are falsy. -/
def truthyStr : Option String → Bool
  | none => false
  | some s => !s.isEmpty

/-- JavaScript `a || b` on optional strings: returns `a` when truthy,
otherwise `b` as-is. -/
def jsOrStr (a b : Option String) : Option String :=
  if truthyStr a then a else b

/-- JavaScript truthiness of an optional boolean. -/
def truthyBool : Option Bool → Bool
  | none => false
  | some b => b

/-- One raw element through the normalizer
(`{...alert, id: alert.alert_id || alert.id,
is_acknowledged: alert.is_acknowledged || alert.acknowledged || false}`,
Header.js lines 307–311). -/
def normalizeAlert (a : RawAlert) : Alert :=
  { alert_id := a.alert_id
    id := jsOrStr a.alert_id a.id
    patient_id := a.patient_id
    patient_name := a.patient_name
    severity := a.severity
    risk_score := a.risk_score
    is_acknowledged := truthyBool a.is_acknowledged || truthyBool a.acknowledged
    acknowledged := a.acknowledged
    timestamp := a.timestamp
    message := a.message
    rest := a.rest }

/-- Shape of `response.data`: an object with an `alerts` array, a bare
array, or anything else (including `undefined`). -/
inductive Payload where
  | withAlerts (alerts : List RawAlert)
  | bare (alerts : List RawAlert)
  | other
deriving DecidableEq

/-- The normalization branch of `fetchAlerts` (Header.js lines 304–318):
use `response.data.alerts` when it is an array, else `response.data` when
it is an array, else the empty list. -/
def normalize : Payload → List Alert
  | .withAlerts raws => raws.map normalizeAlert
  | .bare raws => raws.map normalizeAlert
  | .other => []

/-- Whether a canonical alert carries a non-empty `id`. -/
def Alert.idNonEmpty (a : Alert) : Bool :=
  truthyStr a.id

/-- Modelled from the spec (§4.2): the id resolution the spec prescribes,
`id := raw.alert_id ?? raw.id` with nullish coalescing — `alert_id` wins
whenever present, even if falsy. Used only to compare against the code. -/
def specIdResolution (a : RawAlert) : Option String :=
  match a.alert_id with
  | some s => some s
  | none => a.id

/-- Modelled from the spec (§4.2): the acknowledgement resolution the spec
prescribes, `is_acknowledged ?? acknowledged ?? false` with nullish
coalescing — an explicit `false` stops the chain. Used only to compare
against the code. -/
def specAckResolution (a : RawAlert) : Bool :=
  match a.is_acknowledged with
  | some b => b
  | none =>
    match a.acknowledged with
    | some b => b
    | none => false

/-- JavaScript truthiness of an optional number: `undefined` and `0` are
falsy (`alert.risk_score && …`). -/
def truthyNum : Option ℚ → Bool
  | none => false
  | some r => decide (r ≠ 0)

/-- The critical-tier filter test
(`alert.severity === 'critical' || (alert.risk_score && alert.risk_score >= 0.8)`,
Header.js lines 394–396), with truthiness of `alert.risk_score` modelled. -/
def critTest (a : Alert) : Bool :=
  a.severity == some "critical" ||
    (truthyNum a.risk_score && decide (mkRat 8 10 ≤ a.risk_score.getD 0))

/-- The high-risk-tier filter test
(`alert.severity === 'high' || (alert.risk_score && alert.risk_score >= 0.6 && alert.risk_score < 0.8)`,
Header.js lines 397–399). -/
def highTest (a : Alert) : Bool :=
  a.severity == some "high" ||
    (truthyNum a.risk_score &&
      decide (mkRat 6 10 ≤ a.risk_score.getD 0) &&
      decide (a.risk_score.getD 0 < mkRat 8 10))

/-- Test for an unacknowledged alert (`!alert.is_acknowledged`). -/
def activeTest (a : Alert) : Bool :=
  !a.is_acknowledged

/-- Test for an acknowledged alert (`alert.is_acknowledged`). -/
def ackTest (a : Alert) : Bool :=
  a.is_acknowledged

/-- Derived view `activeAlerts` (Header.js line 393). -/
def activeAlerts (l : List Alert) : List Alert :=
  l.filter activeTest

/-- Derived view `criticalAlerts` (Header.js lines 394–396). -/
def criticalAlerts (l : List Alert) : List Alert :=
  l.filter critTest

/-- Derived view `highRiskAlerts` (Header.js lines 397–399). -/
def highRiskAlerts (l : List Alert) : List Alert :=
  l.filter highTest

/-- Derived view `acknowledgedAlerts` (Header.js line 400). -/
def acknowledgedAlerts (l : List Alert) : List Alert :=
  l.filter ackTest

/-- The `stats` record (Header.js lines 402–408). -/
structure Stats where
  total : ℕ
  active : ℕ
  critical : ℕ
  highRisk : ℕ
  acknowledged : ℕ
deriving DecidableEq

/-- The stats derived from the Store's alert list. -/
def stats (l : List Alert) : Stats :=
  { total := l.length
    active := (activeAlerts l).length
    critical := (criticalAlerts l).length
    highRisk := (highRiskAlerts l).length
    acknowledged := (acknowledgedAlerts l).length }

/-! ## Sync Engine life cycle

`AlertProvider` state together with instrumentation for the event-loop
model: `mounted` records whether the provider is still mounted (the cleanup
of the polling `useEffect` only clears the interval), and `inFlight` counts
fetch requests issued but not yet resolved. -/

/-- Provider state: `alerts`, `loading`, `error`, `lastUpdated`
(Header.js lines 293–296) plus the life-cycle instrumentation. -/
structure ProviderState where
  alerts : List Alert := []
  loading : Bool := false
  error : Option String := none
  lastUpdated : Option ℕ := none
  mounted : Bool := true
  inFlight : ℕ := 0
deriving DecidableEq

/-- Outcome of an issued fetch request: a payload, or a thrown error
(network failure, bad status, parse error). -/
inductive FetchOutcome where
  | success (data : Payload)
  | failure
deriving DecidableEq

/-- The synchronous prefix of `fetchAlerts` (Header.js lines 299–302):
`setLoading(true); setError(null);` and the request is issued. The body
contains no guard — it runs regardless of `loading`. -/
def fetchStart (s : ProviderState) : ProviderState :=
  { s with loading := true, error := none, inFlight := s.inFlight + 1 }

/-- The continuation of `fetchAlerts` after `await` (Header.js lines
302–330): on success the normalized data replaces the alert list and
`lastUpdated` is set; on a thrown error `setError('Failed to load alerts')`;
the `finally` clause clears `loading`. No check of `mounted` appears
anywhere in this continuation. -/
def fetchResolve (now : ℕ) (o : FetchOutcome) (s : ProviderState) : ProviderState :=
  match o with
  | .success p =>
      { s with alerts := normalize p, lastUpdated := some now,
               loading := false, inFlight := s.inFlight - 1 }
  | .failure =>
      { s with error := some "Failed to load alerts",
               loading := false, inFlight := s.inFlight - 1 }

/-- Events of the event-loop model: a fire of the 30-second interval, a
manual `refreshAlerts` call, the resolution of an in-flight request, and
the unmount cleanup. -/
inductive Event where
  | mount
  | timerFire
  | manualRefresh
  | fetchComplete (now : ℕ) (o : FetchOutcome)
  | unmount
deriving DecidableEq

/-- One step of the provider. Mounting runs the effect body, which calls
`fetchAlerts()` at once; the interval is cleared on unmount, so `timerFire`
acts only while mounted; `refreshAlerts` is a bare call to `fetchAlerts`
(Header.js lines 381–390); a resolving fetch always runs its continuation —
the code has no disposed-store guard. -/
def step (s : ProviderState) : Event → ProviderState
  | .mount => fetchStart s
  | .timerFire => if s.mounted then fetchStart s else s
  | .manualRefresh => fetchStart s
  | .fetchComplete now o => fetchResolve now o s
  | .unmount => { s with mounted := false }

/-! ## Mutation Coordinator -/

/-- The optimistic edit of `acknowledgeAlert` (Header.js lines 336–338):
map over the list, setting `is_acknowledged` on the alert whose `id`
matches. -/
def ackOne (aid : String) (a : Alert) : Alert :=
  if a.id == some aid then { a with is_acknowledged := true } else a

/-- `setAlerts(prev => prev.map(alert => alert.id === alertId ? {...alert, is_acknowledged: true} : alert))`. -/
def ackOptimistic (aid : String) (l : List Alert) : List Alert :=
  l.map (ackOne aid)

/-- Test that an alert's id differs from the dismissed id
(`alert.id !== alertId`). -/
def keepTest (aid : String) (a : Alert) : Bool :=
  !(a.id == some aid)

/-- The optimistic edit of `dismissAlert` (Header.js line 361):
`setAlerts(prev => prev.filter(alert => alert.id !== alertId))`. -/
def dismissOptimistic (aid : String) (l : List Alert) : List Alert :=
  l.filter (keepTest aid)

/-- Observable actions of a mutation operation, in program order. -/
inductive MEvent where
  | storeWrite (alerts : List Alert)
  | remoteAck (aid : String)
  | remoteDismiss (aid : String)
  | touchLastUpdated
  | scheduleFetch (delayMs : ℕ)
  | fetchNow
deriving DecidableEq

/-- `acknowledgeAlert` (Header.js lines 333–356) as a trace-producing
function of the remote call's outcome: optimistic store write, remote call,
then on success `setLastUpdated` and `setTimeout(fetchAlerts, 500)` with
result `true`; on a thrown error `await fetchAlerts()` with result
`false`. -/
def acknowledgeAlert (aid : String) (remoteOk : Bool) (l : List Alert) :
    Bool × List MEvent :=
  let edited := ackOptimistic aid l
  if remoteOk then
    (true, [.storeWrite edited, .remoteAck aid, .touchLastUpdated, .scheduleFetch 500])
  else
    (false, [.storeWrite edited, .remoteAck aid, .fetchNow])

/-- `dismissAlert` (Header.js lines 358–379), same shape as
`acknowledgeAlert` with a filter as the optimistic edit. -/
def dismissAlert (aid : String) (remoteOk : Bool) (l : List Alert) :
    Bool × List MEvent :=
  let edited := dismissOptimistic aid l
  if remoteOk then
    (true, [.storeWrite edited, .remoteDismiss aid, .touchLastUpdated, .scheduleFetch 500])
  else
    (false, [.storeWrite edited, .remoteDismiss aid, .fetchNow])

/-! ## Concrete instances used in scenarios -/

/-- The provider state right after mount: the mount-time fetch is in
flight. -/
def mountedFetching : ProviderState :=
  step {} Event.mount

/-- The provider state after unmounting while the mount-time fetch is
still in flight. -/
def unmountedFetching : ProviderState :=
  step (step {} Event.mount) Event.unmount

/-- A raw alert arriving in a response that resolves after teardown. -/
def rawLate : RawAlert :=
  { id := some "late1" }

/-- Raw element with an explicit `is_acknowledged:false` next to a legacy
`acknowledged:true`. -/
def rawAckClash : RawAlert :=
  { is_acknowledged := some false, acknowledged := some true }

/-- Raw element whose `alert_id` is the empty string (falsy) next to a
non-empty `id`. -/
def rawEmptyAlertId : RawAlert :=
  { alert_id := some "", id := some "x" }

/-- Raw element carrying both a non-empty `alert_id` and an `id`. -/
def rawWithBothIds : RawAlert :=
  { alert_id := some "z", id := some "y" }

/-- Alert with tag `high` and score `0.9`: critical by score and high by
tag at once. -/
def overlapAlert : Alert :=
  { severity := some "high", risk_score := some (mkRat 9 10) }

/-- A plain unacknowledged alert with id `a1`. -/
def plainAlert : Alert :=
  { id := some "a1", severity := some "critical" }

/-- A plain unacknowledged alert used for the partition witness. -/
def plainActiveAlert : Alert :=
  { id := some "w", is_acknowledged := false }

/-- First raw alert of the stats scenario:
`{id: a1, risk_score: 0.85, is_acknowledged: false}`. -/
def rawScenario1 : RawAlert :=
  { id := some "a1", risk_score := some (mkRat 85 100), is_acknowledged := some false }

/-- Second raw alert of the stats scenario:
`{id: a2, severity: medium, is_acknowledged: true}`. -/
def rawScenario2 : RawAlert :=
  { id := some "a2", severity := some "medium", is_acknowledged := some true }

/-! ## Shared lemmas -/

/-- The threshold `0.8` written as the source evaluates it. -/
lemma mkRat_eight_tenths : (mkRat 8 10 : ℚ) = 0.8 := by
  norm_num [mkRat, Rat.normalize]

/-- The threshold `0.6` written as the source evaluates it. -/
lemma mkRat_six_tenths : (mkRat 6 10 : ℚ) = 0.6 := by
  norm_num [mkRat, Rat.normalize]

/-- The truthiness guard on the score is redundant at the critical
threshold: a score of at least `0.8` is nonzero. -/
lemma crit_score_iff (r : ℚ) : (r ≠ 0 ∧ mkRat 8 10 ≤ r) ↔ (0.8 : ℚ) ≤ r := by
  rw [mkRat_eight_tenths]
  constructor
  · exact fun h => h.2
  · intro h
    refine ⟨?_, h⟩
    intro h0
    rw [h0] at h
    norm_num at h

/-- The truthiness guard is likewise redundant on the high-risk band. -/
lemma high_score_iff (r : ℚ) :
    (r ≠ 0 ∧ mkRat 6 10 ≤ r ∧ r < mkRat 8 10) ↔ ((0.6 : ℚ) ≤ r ∧ r < 0.8) := by
  rw [mkRat_six_tenths, mkRat_eight_tenths]
  constructor
  · exact fun h => h.2
  · intro h
    refine ⟨?_, h⟩
    intro h0
    rw [h0] at h
    norm_num at h

/-- Membership form of the critical filter test. -/
lemma critTest_iff (a : Alert) :
    critTest a = true ↔
      (a.severity = some "critical" ∨ ∃ r, a.risk_score = some r ∧ (0.8 : ℚ) ≤ r) := by
  cases h : a.risk_score with
  | none => simp [critTest, truthyNum, h]
  | some r =>
      simp only [critTest, truthyNum, h, Option.getD_some, Bool.or_eq_true,
        Bool.and_eq_true, beq_iff_eq, decide_eq_true_eq, Option.some.injEq]
      constructor
      · rintro (hs | hr)
        · exact Or.inl hs
        · exact Or.inr ⟨r, rfl, (crit_score_iff r).mp hr⟩
      · rintro (hs | ⟨r2, hr2, hle⟩)
        · exact Or.inl hs
        · cases hr2
          exact Or.inr ((crit_score_iff r).mpr hle)

/-- Membership form of the high-risk filter test. -/
lemma highTest_iff (a : Alert) :
    highTest a = true ↔
      (a.severity = some "high" ∨
        ∃ r, a.risk_score = some r ∧ (0.6 : ℚ) ≤ r ∧ r < 0.8) := by
  cases h : a.risk_score with
  | none => simp [highTest, truthyNum, h]
  | some r =>
      simp only [highTest, truthyNum, h, Option.getD_some, Bool.or_eq_true,
        Bool.and_eq_true, beq_iff_eq, decide_eq_true_eq, Option.some.injEq]
      constructor
      · rintro (hs | hr)
        · exact Or.inl hs
        · rcases hr with ⟨⟨hne, hlo⟩, hhi⟩
          exact Or.inr ⟨r, rfl, (high_score_iff r).mp ⟨hne, hlo, hhi⟩⟩
      · rintro (hs | ⟨r2, hr2, hband⟩)
        · exact Or.inl hs
        · cases hr2
          rcases (high_score_iff r).mpr hband with ⟨hne, hlo, hhi⟩
          exact Or.inr ⟨⟨hne, hlo⟩, hhi⟩

/-- The normalizer output id is non-empty exactly when the raw element
carried a truthy `alert_id` or a truthy `id`. -/
lemma idNonEmpty_iff (r : RawAlert) :
    (normalizeAlert r).idNonEmpty = true ↔
      (truthyStr r.alert_id = true ∨ truthyStr r.id = true) := by
  unfold Alert.idNonEmpty normalizeAlert jsOrStr
  cases h : truthyStr r.alert_id <;> simp [h]

/-- Evaluation of the `||` chain for the acknowledgement flag. -/
lemma truthyBool_or_iff (x y : Option Bool) :
    (truthyBool x || truthyBool y) = true ↔ (x = some true ∨ y = some true) := by
  rcases x with _ | b <;> rcases y with _ | c <;> simp [truthyBool]

/-- `active` and `acknowledged` filters split the length of any list. -/
lemma filter_ack_partition (l : List Alert) :
    (l.filter activeTest).length + (l.filter ackTest).length = l.length := by
  induction l with
  | nil => rfl
  | cons a t ih =>
      cases h : a.is_acknowledged <;>
        simp [List.filter_cons, activeTest, ackTest, h] <;> omega

/-! ## Claim theorems -/

/-- C1, counterexample. Directly after mount the provider has a fetch in
flight (`loading` is true), yet a timer fire in that state starts a second
fetch: `fetchAlerts` has no single-flight guard. -/
theorem c1_counterexample :
    mountedFetching.loading = true ∧ mountedFetching.inFlight = 1 ∧
    (step mountedFetching Event.timerFire).inFlight = 2 := by
  decide

/-- C1, amended. A timer fire while mounted, and a manual refresh in any
state, unconditionally run `fetchAlerts`, which sets `loading` and issues a
new request even when one is already in flight; there is no single-flight
guard. -/
theorem c1_fetch_unguarded (s : ProviderState) (h : s.mounted = true) :
    step s Event.timerFire = fetchStart s ∧
    step s Event.manualRefresh = fetchStart s ∧
    (fetchStart s).inFlight = s.inFlight + 1 ∧
    (fetchStart s).loading = true := by
  refine ⟨by simp [step, h], rfl, rfl, rfl⟩

/-- C1, witness for the amended theorem at the post-mount state. -/
theorem c1_fetch_unguarded_witness :
    step mountedFetching Event.timerFire = fetchStart mountedFetching :=
  (c1_fetch_unguarded mountedFetching (by decide)).1

/-- C2, counterexample. Unmounting while the mount-time fetch is in flight
leaves the request pending; when it resolves, the alert list is
overwritten — the write path runs after teardown. -/
theorem c2_counterexample :
    unmountedFetching.mounted = false ∧ unmountedFetching.inFlight = 1 ∧
    (step unmountedFetching
        (Event.fetchComplete 7 (FetchOutcome.success (Payload.bare [rawLate])))).alerts ≠
      unmountedFetching.alerts := by
  decide

/-- C2, amended. A fetch resolving after unmount executes its continuation
exactly as when mounted: on success the alert list is replaced and
`lastUpdated` set, on failure the error message is recorded — the code has
no disposed-store guard; any suppression is left to the UI framework. -/
theorem c2_resolve_unguarded (s : ProviderState) (now : ℕ) (o : FetchOutcome)
    (_h : s.mounted = false) :
    step s (Event.fetchComplete now o) = fetchResolve now o s ∧
    (∀ p : Payload, o = FetchOutcome.success p →
      (step s (Event.fetchComplete now o)).alerts = normalize p ∧
      (step s (Event.fetchComplete now o)).lastUpdated = some now) ∧
    (o = FetchOutcome.failure →
      (step s (Event.fetchComplete now o)).error = some "Failed to load alerts") := by
  refine ⟨rfl, ?_, ?_⟩
  · intro p hp
    subst hp
    exact ⟨rfl, rfl⟩
  · intro hf
    subst hf
    rfl

/-- C2, witness for the amended theorem at the post-unmount state. -/
theorem c2_resolve_unguarded_witness :
    (step unmountedFetching
        (Event.fetchComplete 7 (FetchOutcome.success (Payload.bare [rawLate])))).alerts =
      normalize (Payload.bare [rawLate]) :=
  ((c2_resolve_unguarded unmountedFetching 7
      (FetchOutcome.success (Payload.bare [rawLate])) (by decide)).2.1
    (Payload.bare [rawLate]) rfl).1

/-- C3, counterexample. The payload `{alerts: [{}]}` normalizes to a
sequence of length 1 whose single element has an empty id: the id
non-emptiness part of the claim fails for raw elements that carry neither
`alert_id` nor `id`. -/
theorem c3_counterexample :
    (normalize (Payload.withAlerts [({} : RawAlert)])).length = 1 ∧
    (normalize (Payload.withAlerts [({} : RawAlert)])).filter Alert.idNonEmpty = [] := by
  decide

/-- C3, amended. Both recognized shapes preserve the payload length, every
other shape yields the empty sequence (the normalizer is total, so it never
throws), and an output id is non-empty exactly when the raw element carried
a non-empty `alert_id` or a non-empty `id`. -/
theorem c3_normalizer_shape (raws : List RawAlert) :
    (normalize (Payload.withAlerts raws)).length = raws.length ∧
    (normalize (Payload.bare raws)).length = raws.length ∧
    normalize Payload.other = [] ∧
    ∀ r : RawAlert, ((normalizeAlert r).idNonEmpty = true ↔
      (truthyStr r.alert_id = true ∨ truthyStr r.id = true)) := by
  exact ⟨by simp [normalize], by simp [normalize], rfl, fun r => idNonEmpty_iff r⟩

/-- C4, counterexample. The normalizer resolves fields with logical OR,
not nullish coalescing: an explicit `is_acknowledged:false` is overridden
by `acknowledged:true`, and an empty-string `alert_id` loses to `id`,
contrary to the claimed `??` semantics. -/
theorem c4_counterexample :
    (normalizeAlert rawAckClash).is_acknowledged = true ∧
    specAckResolution rawAckClash = false ∧
    (normalizeAlert rawEmptyAlertId).id = some "x" ∧
    specIdResolution rawEmptyAlertId = some "" := by
  decide

/-- C4, amended. The canonical record has `isAcknowledged` true exactly
when `is_acknowledged` or legacy `acknowledged` is true (logical OR — a
falsy first field falls through), `id` equal to `alert_id` whenever that is
a non-empty string and to the raw `id` whenever `alert_id` is falsy, and
every other field passed through unchanged. -/
theorem c4_field_resolution (a : RawAlert) :
    ((normalizeAlert a).is_acknowledged = true ↔
      (a.is_acknowledged = some true ∨ a.acknowledged = some true)) ∧
    (∀ s : String, a.alert_id = some s → s ≠ "" → (normalizeAlert a).id = some s) ∧
    (truthyStr a.alert_id = false → (normalizeAlert a).id = a.id) ∧
    (normalizeAlert a).alert_id = a.alert_id ∧
    (normalizeAlert a).patient_id = a.patient_id ∧
    (normalizeAlert a).patient_name = a.patient_name ∧
    (normalizeAlert a).severity = a.severity ∧
    (normalizeAlert a).risk_score = a.risk_score ∧
    (normalizeAlert a).acknowledged = a.acknowledged ∧
    (normalizeAlert a).timestamp = a.timestamp ∧
    (normalizeAlert a).message = a.message ∧
    (normalizeAlert a).rest = a.rest := by
  refine ⟨truthyBool_or_iff a.is_acknowledged a.acknowledged, ?_, ?_,
    rfl, rfl, rfl, rfl, rfl, rfl, rfl, rfl, rfl⟩
  · intro s hs hne
    unfold normalizeAlert jsOrStr
    rw [hs]
    simp [truthyStr, String.isEmpty_iff, hne]
  · intro hfalsy
    unfold normalizeAlert jsOrStr
    rw [hfalsy]
    rfl

/-- C4, witness for the amended theorem: a non-empty `alert_id` becomes the
canonical id. -/
theorem c4_field_resolution_witness :
    (normalizeAlert rawWithBothIds).id = some "z" :=
  (c4_field_resolution rawWithBothIds).2.1 "z" rfl (by decide)

/-- C5. An alert in the Store is in the `criticalAlerts` view exactly when
its severity tag is `critical` or its risk score is at least `0.8`, and in
the `highRiskAlerts` view exactly when its severity tag is `high` or its
risk score lies in `[0.6, 0.8)`; the characterizations overlap freely. -/
theorem c5_tier_membership (l : List Alert) (a : Alert) (ha : a ∈ l) :
    (a ∈ criticalAlerts l ↔
      (a.severity = some "critical" ∨ ∃ r, a.risk_score = some r ∧ (0.8 : ℚ) ≤ r)) ∧
    (a ∈ highRiskAlerts l ↔
      (a.severity = some "high" ∨
        ∃ r, a.risk_score = some r ∧ (0.6 : ℚ) ≤ r ∧ r < 0.8)) := by
  constructor
  · rw [criticalAlerts, List.mem_filter, critTest_iff]
    simp [ha]
  · rw [highRiskAlerts, List.mem_filter, highTest_iff]
    simp [ha]

/-- C5, witness: an alert with tag `high` and score `0.9` is in both
views — overlap between tiers is permitted. -/
theorem c5_tier_membership_witness :
    overlapAlert ∈ criticalAlerts [overlapAlert] ∧
    overlapAlert ∈ highRiskAlerts [overlapAlert] :=
  ⟨(c5_tier_membership [overlapAlert] overlapAlert (by decide)).1.mpr
      (Or.inr ⟨mkRat 9 10, rfl, by rw [← mkRat_eight_tenths]; decide⟩),
    (c5_tier_membership [overlapAlert] overlapAlert (by decide)).2.mpr (Or.inl rfl)⟩

/-- C6. A failing fetch leaves the alert list and `lastUpdated` exactly as
they were before the fetch started, records the error message, and clears
the loading flag. -/
theorem c6_fetch_failure_atomic (s : ProviderState) (now : ℕ) :
    (fetchResolve now FetchOutcome.failure (fetchStart s)).alerts = s.alerts ∧
    (fetchResolve now FetchOutcome.failure (fetchStart s)).error =
      some "Failed to load alerts" ∧
    (fetchResolve now FetchOutcome.failure (fetchStart s)).loading = false ∧
    (fetchResolve now FetchOutcome.failure (fetchStart s)).lastUpdated = s.lastUpdated :=
  ⟨rfl, rfl, rfl, rfl⟩

/-- C7. The acknowledge operation writes the optimistically edited list to
the Store before the remote call; the edit preserves length and acts
pointwise: the alert whose id matches gets `is_acknowledged := true` and
keeps every other field, every other alert is untouched. -/
theorem c7_ack_optimistic_frame (aid : String) (l : List Alert) :
    (∀ ok : Bool, ∃ rest : List MEvent,
      (acknowledgeAlert aid ok l).2 =
        MEvent.storeWrite (ackOptimistic aid l) :: MEvent.remoteAck aid :: rest) ∧
    (ackOptimistic aid l).length = l.length ∧
    (∀ i : ℕ, (ackOptimistic aid l)[i]? = (l[i]?).map (ackOne aid)) ∧
    (∀ a : Alert, a.id = some aid → ackOne aid a = { a with is_acknowledged := true }) ∧
    (∀ a : Alert, a.id ≠ some aid → ackOne aid a = a) ∧
    (∀ a : Alert, (ackOne aid a).id = a.id ∧ (ackOne aid a).alert_id = a.alert_id ∧
      (ackOne aid a).patient_id = a.patient_id ∧
      (ackOne aid a).patient_name = a.patient_name ∧
      (ackOne aid a).severity = a.severity ∧
      (ackOne aid a).risk_score = a.risk_score ∧
      (ackOne aid a).acknowledged = a.acknowledged ∧
      (ackOne aid a).timestamp = a.timestamp ∧
      (ackOne aid a).message = a.message ∧ (ackOne aid a).rest = a.rest) := by
  refine ⟨?_, by simp [ackOptimistic], ?_, ?_, ?_, ?_⟩
  · intro ok
    cases ok
    · exact ⟨[MEvent.fetchNow], rfl⟩
    · exact ⟨[MEvent.touchLastUpdated, MEvent.scheduleFetch 500], rfl⟩
  · intro i
    exact List.getElem?_map (ackOne aid) l i
  · intro a h
    simp [ackOne, h]
  · intro a h
    simp [ackOne, h]
  · intro a
    unfold ackOne
    split <;> simp

/-- C7, witness: a matching alert is acknowledged with all other fields
kept, a non-matching alert is untouched. -/
theorem c7_ack_optimistic_frame_witness :
    ackOne "a1" plainAlert = { plainAlert with is_acknowledged := true } ∧
    ackOne "zz" plainAlert = plainAlert :=
  ⟨(c7_ack_optimistic_frame "a1" [plainAlert]).2.2.2.1 plainAlert rfl,
    (c7_ack_optimistic_frame "zz" [plainAlert]).2.2.2.2.1 plainAlert (by decide)⟩

/-- C8. Acknowledge and dismiss return the remote outcome as their boolean
result; on failure the trace is exactly optimistic store write, remote
call, then an immediate resync fetch before returning false; on success no
immediate fetch runs — a reconciliation fetch is scheduled with a 500 ms
delay instead. -/
theorem c8_mutation_outcome (aid : String) (l : List Alert) :
    (∀ ok : Bool, (acknowledgeAlert aid ok l).1 = ok ∧ (dismissAlert aid ok l).1 = ok) ∧
    (acknowledgeAlert aid false l).2 =
      [MEvent.storeWrite (ackOptimistic aid l), MEvent.remoteAck aid, MEvent.fetchNow] ∧
    (dismissAlert aid false l).2 =
      [MEvent.storeWrite (dismissOptimistic aid l), MEvent.remoteDismiss aid,
        MEvent.fetchNow] ∧
    MEvent.fetchNow ∉ (acknowledgeAlert aid true l).2 ∧
    MEvent.scheduleFetch 500 ∈ (acknowledgeAlert aid true l).2 ∧
    MEvent.fetchNow ∉ (dismissAlert aid true l).2 ∧
    MEvent.scheduleFetch 500 ∈ (dismissAlert aid true l).2 := by
  refine ⟨fun ok => by cases ok <;> exact ⟨rfl, rfl⟩, rfl, rfl,
    by simp [acknowledgeAlert], by simp [acknowledgeAlert],
    by simp [dismissAlert], by simp [dismissAlert]⟩

/-- C9. Ingesting the two-alert scenario payload yields exactly the
claimed stats: total 2, active 1, critical 1, highRisk 0, acknowledged 1. -/
theorem c9_stats_scenario :
    stats (normalize (Payload.bare [rawScenario1, rawScenario2])) =
      { total := 2, active := 1, critical := 1, highRisk := 0, acknowledged := 1 } := by
  decide

/-- C10. In every Store state the active and acknowledged views are
disjoint and cover the alert list, so active + acknowledged = total in the
stats; the equation holds again after any optimistic acknowledge, any
optimistic dismiss, and any fetch ingestion. -/
theorem c10_partition (l : List Alert) :
    ((stats l).active + (stats l).acknowledged = (stats l).total) ∧
    (∀ a : Alert, a ∈ activeAlerts l → a ∉ acknowledgedAlerts l) ∧
    (∀ a : Alert, a ∈ l ↔ (a ∈ activeAlerts l ∨ a ∈ acknowledgedAlerts l)) ∧
    (∀ aid : String,
      (stats (ackOptimistic aid l)).active + (stats (ackOptimistic aid l)).acknowledged =
        (stats (ackOptimistic aid l)).total) ∧
    (∀ aid : String,
      (stats (dismissOptimistic aid l)).active +
          (stats (dismissOptimistic aid l)).acknowledged =
        (stats (dismissOptimistic aid l)).total) ∧
    (∀ p : Payload,
      (stats (normalize p)).active + (stats (normalize p)).acknowledged =
        (stats (normalize p)).total) := by
  refine ⟨filter_ack_partition l, ?_, ?_, fun aid => filter_ack_partition _,
    fun aid => filter_ack_partition _, fun p => filter_ack_partition _⟩
  · intro a ha hb
    rw [activeAlerts, List.mem_filter] at ha
    rw [acknowledgedAlerts, List.mem_filter] at hb
    rw [activeTest] at ha
    rw [ackTest] at hb
    rw [hb.2] at ha
    exact Bool.false_ne_true ha.2
  · intro a
    constructor
    · intro h
      cases hb : a.is_acknowledged
      · exact Or.inl (List.mem_filter.mpr ⟨h, by simp [activeTest, hb]⟩)
      · exact Or.inr (List.mem_filter.mpr ⟨h, by simp [ackTest, hb]⟩)
    · rintro (h | h)
      · exact (List.mem_filter.mp h).1
      · exact (List.mem_filter.mp h).1

/-- C10, witness: an unacknowledged alert is in the active view and not in
the acknowledged view of its singleton store. -/
theorem c10_partition_witness :
    plainActiveAlert ∈ activeAlerts [plainActiveAlert] ∧
    plainActiveAlert ∉ acknowledgedAlerts [plainActiveAlert] :=
  ⟨by decide, (c10_partition [plainActiveAlert]).2.1 plainActiveAlert (by decide)⟩

end AlertEngine
